import Mathlib

/-!
Shallow embedding of `yamcs_mdb_gen.py` (class `YAMCSMDBGen`): the data model
for YAMCS mission-database generation (data types, parameters, calibrations,
TM packets and commands), the primitive-type translator, the validator and
the CSV serializer, together with theorems settling the specification claims.

Python exceptions are modelled by an explicit error type; methods that can
raise return either `Except` (constructors) or a pair
`Option PyError × Model` (mutating methods: the second component is the state
of the object when the call returns or when the exception escapes).

Python `str` is modelled by `String`; values that in the source may be either
an `int` or a `str` (packet frequency, command opcode, parameter
default/min/max, calibration entries) are modelled by `PyVal`.
-/

/-- Errors raised by the generator.  `nameConflictError`, `undeclaredTypeError`
and `unknownNativeTypeError` model the three exception classes declared in the
source; `exception` models a bare Python `Exception` (the `addTMTC` raise).
Message strings mirror the source's f-strings, with the decorative single
quotes around interpolated values omitted. -/
inductive PyError where
  | nameConflictError (msg : String)
  | undeclaredTypeError (msg : String)
  | unknownNativeTypeError (msg : String)
  | exception (msg : String)
deriving DecidableEq

/-- A Python value that is either an `int` or a `str` (the source passes both
through the same fields, e.g. opcodes, defaults, calibration entries). -/
inductive PyVal where
  | int (i : Int)
  | str (s : String)
deriving DecidableEq

/-- Python `str(v)` on a `PyVal` (as used when values are interpolated into
the CSV templates). -/
def pyStr : PyVal → String
  | .int i => toString i
  | .str s => s

/-- Python `str(v) if v is not None else ""` — how optional values are
rendered in the templates. -/
def pyOptStr : Option PyVal → String
  | none => ""
  | some v => pyStr v

/-- Python `int(s)` restricted to the strings of ASCII decimal digits that it
receives in this program (captures of `\d+` and the numeric literal fields of
`TYPES_MAP`). -/
def pyIntOfDigitList (l : List Char) : Nat :=
  l.foldl (fun a c => 10 * a + (c.toNat - 48)) 0

/-- `pyIntOfDigitList` on a `String`. -/
def pyIntOfDigits (s : String) : Nat := pyIntOfDigitList s.data

/-- `TYPES_MAP`: native/primitive type tokens and their mapping to YAMCS
(engineering type, raw type, encoding) triples.  The last key is the regex
pattern `string(\d+)`; its encoding field is the formula `8*{}` (written here
with `\x7b\x7d` escapes for the braces). -/
def TYPES_MAP : List (String × (String × String × String)) := [
  ("bool", ("uint", "uint", "8")),
  ("U8", ("uint", "uint", "8")),
  ("U16", ("uint", "uint", "16")),
  ("U32", ("uint", "uint", "32")),
  ("U64", ("uint", "uint", "64")),
  ("I8", ("int", "int", "8")),
  ("I16", ("int", "int", "16")),
  ("I32", ("int", "int", "32")),
  ("I64", ("int", "int", "64")),
  ("F32", ("float", "float", "32")),
  ("F64", ("float", "float", "64")),
  ("string(\\d+)", ("string", "string", "8*\x7b\x7d"))
]

/-- `OPCODE_TYPE` class attribute. -/
def OPCODE_TYPE : String := "U32"

/-- `PACKETID_TYPE` class attribute. -/
def PACKETID_TYPE : String := "U32"

/-- `PACKETTYPE_TYPE` class attribute. -/
def PACKETTYPE_TYPE : String := "U32"

/-- `PACKETTYPE_TLM` class attribute. -/
def PACKETTYPE_TLM : Int := 1

/-- `NAME_REPLACE_MAP` class attribute: character replacements applied to all
names during validation (each entry of the source's dict is a single
character, so it is modelled as a `Char` pair). -/
def NAME_REPLACE_MAP : List (Char × Char) := [('.', '_')]

/-- Exact-key lookup, modelling `t in TYPES_MAP` followed by `TYPES_MAP[t]`. -/
def _lookupExact (t : String) : List (String × (String × String × String)) → Option (String × String × String)
  | [] => none
  | (k, v) :: rest => if t = k then some v else _lookupExact t rest

/-- Drops `p` as a prefix of `l`, returning the remainder (helper for the
anchored regex match of the `string(\d+)` pattern). -/
def dropPrefixChars : List Char → List Char → Option (List Char)
  | [], l => some l
  | _ :: _, [] => none
  | p :: ps, c :: cs => if c = p then dropPrefixChars ps cs else none

/-- `re.match("^string(\d+)$", t)`: succeeds exactly when `t` is `"string"`
followed by one or more decimal digits, capturing the digits. -/
def matchStringPattern (t : String) : Option String :=
  match dropPrefixChars "string".data t.data with
  | some rest => if !rest.isEmpty && rest.all Char.isDigit then some ⟨rest⟩ else none
  | none => none

/-- `re.match(f"^\x7bpattern\x7d$", t)` for the keys that occur in
`TYPES_MAP`: the eleven literal keys contain no regex metacharacters, so they
match exactly themselves with no capture groups; the `string(\d+)` key
captures one digit group. -/
def patternMatch (pat t : String) : Option (List String) :=
  if pat = "string(\\d+)" then (matchStringPattern t).map (fun g => [g])
  else if t = pat then some [] else none

/-- `re.match(r"^\d+\*\x7b\x7d$", field)`: does the field consist of one or
more digits followed by `*` and a brace pair. -/
def isMulTemplate (field : String) : Bool :=
  let ds := field.data.takeWhile Char.isDigit
  !ds.isEmpty && field.data.dropWhile Char.isDigit = ['*', '\x7b', '\x7d']

/-- `str.format` for the fields of `TYPES_MAP`: interpolates positional
arguments at `\x7b\x7d` sites; a field without braces is returned verbatim
(the only braced field, `8*\x7b\x7d`, is handled by the multiplier branch
before `format` is ever reached). -/
def pyFormatAux : List Char → List String → List Char
  | [], _ => []
  | '\x7b' :: '\x7d' :: rest, g :: gs => g.data ++ pyFormatAux rest gs
  | '\x7b' :: '\x7d' :: rest, [] => pyFormatAux rest []
  | c :: rest, gs => c :: pyFormatAux rest gs

/-- `field.format(*groups)`. -/
def pyFormat (field : String) (groups : List String) : String :=
  ⟨pyFormatAux field.data groups⟩

/-- One output field of a pattern-matched `TYPES_MAP` entry:
`str(int(field.split('*')[0]) * int(groups[0]))` when the field is the
multiplier template (`field.split('*')[0]` is its digit prefix), otherwise
`field.format(*groups)` verbatim. -/
def _formatField (field : String) (groups : List String) : String :=
  if isMulTemplate field then
    toString (pyIntOfDigitList (field.data.takeWhile Char.isDigit) * pyIntOfDigits (groups.headD ""))
  else pyFormat field groups

/-- The pattern-scanning loop of `_translate_type`, in `TYPES_MAP` declaration
order: on the first anchored match, return the entry's triple, with each field
formatted when the match captured groups; raise `UnknownNativeTypeError` when
no key matches. -/
def _translate_loop (t : String) : List (String × (String × String × String)) → Except PyError (String × String × String)
  | [] => .error (.unknownNativeTypeError "Native type is not supported")
  | (pat, type_info) :: rest =>
    match patternMatch pat t with
    | some groups =>
      if groups.isEmpty then .ok type_info
      else .ok (_formatField type_info.1 groups, _formatField type_info.2.1 groups, _formatField type_info.2.2 groups)
    | none => _translate_loop t rest

/-- `YAMCSMDBGen._translate_type`: exact lookup in `TYPES_MAP` first, then the
pattern-scanning loop. -/
def _translate_type (t : String) : Except PyError (String × String × String) :=
  match _lookupExact t TYPES_MAP with
  | some info => .ok info
  | none => _translate_loop t TYPES_MAP

/-- The subclass tag of a `DataType`, carrying the extra attribute each
subclass stores: `ArrayDataType` keeps the element type name (`elType`),
`AggregateDataType` keeps the ordered member name → type mapping. -/
inductive DTKind where
  | plain
  | array (elType : String)
  | aggregate (members : List (String × String))
deriving DecidableEq

/-- `YAMCSMDBGen.DataType`: a YAMCS TM or TC data type record. -/
structure DataType where
  name : String
  engType : String
  rawType : String
  encoding : String
  calibration : Option String
  kind : DTKind
deriving DecidableEq

/-- `YAMCSMDBGen.PrimitiveDataType.__init__`: translates the token and names
the type after it (the translation can raise `UnknownNativeTypeError`). -/
def PrimitiveDataType (typeStr : String) : Except PyError DataType :=
  match _translate_type typeStr with
  | .error e => .error e
  | .ok ti => .ok { name := typeStr, engType := ti.1, rawType := ti.2.1, encoding := ti.2.2, calibration := none, kind := .plain }

/-- `YAMCSMDBGen.EnumDataType.__init__`: engineering type `enumerated`,
raw type and encoding from the representation type, calibration reference
equal to the type's own name. -/
def EnumDataType (typeName typeStr : String) : Except PyError DataType :=
  match _translate_type typeStr with
  | .error e => .error e
  | .ok ti => .ok { name := typeName, engType := "enumerated", rawType := ti.2.1, encoding := ti.2.2, calibration := some typeName, kind := .plain }

/-- `YAMCSMDBGen.ArrayDataType.__init__`: engineering type `elType[]`, empty
raw type and encoding, element type stored for validation. -/
def ArrayDataType (typeName typeStr : String) : DataType :=
  { name := typeName, engType := typeStr ++ "[]", rawType := "", encoding := "", calibration := none, kind := .array typeStr }

/-- `YAMCSMDBGen.AggregateDataType.__init__`: engineering type is the
brace-delimited C-style member list, members stored for validation. -/
def AggregateDataType (typeName : String) (members : List (String × String)) : DataType :=
  { name := typeName,
    engType := "\x7b" ++ String.intercalate " " (members.map (fun nt => nt.2 ++ " " ++ nt.1 ++ ";")) ++ "\x7d",
    rawType := "", encoding := "", calibration := none, kind := .aggregate members }

/-- `YAMCSMDBGen.Parameter`: a TM-packet parameter or command argument. -/
structure Parameter where
  name : String
  typeName : String
  default : Option PyVal
  min : Option PyVal
  max : Option PyVal
deriving DecidableEq

/-- `YAMCSMDBGen.ArrayParameter.__init__`: a parameter whose stored name
carries the bracketed length suffix. -/
def ArrayParameter (name typeName : String) (length : Int) : Parameter :=
  { name := name ++ "[" ++ toString length ++ "]", typeName := typeName, default := none, min := none, max := none }

/-- `YAMCSMDBGen.Calib`: a calibration record. -/
structure Calib where
  name : String
  kind : String
  calibs1 : List PyVal
  calibs2 : List PyVal
deriving DecidableEq

/-- The `values` argument of `EnumCalib`/`addEnumType`: either an ordered
label list or a label → raw-value mapping (iterated in insertion order). -/
inductive EnumValues where
  | ofList (vs : List String)
  | ofMap (vs : List (String × PyVal))
deriving DecidableEq

/-- `YAMCSMDBGen.EnumCalib.__init__`: list input gives raw values `0..N-1`
paired with the labels in order; mapping input gives the mapping's values as
raw values and its keys as labels, both in insertion order. -/
def EnumCalib (typeName : String) (values : EnumValues) : Calib :=
  match values with
  | .ofList vs => { name := typeName, kind := "enumeration", calibs1 := (List.range vs.length).map (fun i => .int i), calibs2 := vs.map .str }
  | .ofMap vs => { name := typeName, kind := "enumeration", calibs1 := vs.map (fun kv => kv.2), calibs2 := vs.map (fun kv => .str kv.1) }

/-- `YAMCSMDBGen.TMPacket`: name, ordered parameters, numeric id, optional
expected frequency. -/
structure TMPacket where
  name : String
  params : List Parameter
  id : Int
  freq : Option PyVal
deriving DecidableEq

/-- `YAMCSMDBGen.Command`: name, ordered arguments, opcode. -/
structure Command where
  name : String
  params : List Parameter
  opcode : PyVal
deriving DecidableEq

/-- A value of the (duck-typed) `TMTCEntry` argument of `addTMTC`: a
`TMPacket`, a `Command`, or an instance of the base `TMTCEntry` class itself,
which is neither. -/
inductive TMTCEntry where
  | packet (p : TMPacket)
  | command (c : Command)
  | base (name : String) (params : List Parameter)
deriving DecidableEq

/-- `TMTCEntry.addParam`: appends a regular parameter to a parameter list. -/
def addParam (params : List Parameter) (paramName paramType : String)
    (default : Option PyVal := none) (low : Option PyVal := none) (high : Option PyVal := none) : List Parameter :=
  params ++ [{ name := paramName, typeName := paramType, default := default, min := low, max := high }]

/-- `TMTCEntry.addArray`: appends an array parameter to a parameter list. -/
def addArray (params : List Parameter) (paramName arrayName : String) (arrayLength : Int) : List Parameter :=
  params ++ [ArrayParameter paramName arrayName arrayLength]

/-- The state of a `YAMCSMDBGen` object: constructor arguments plus the four
collections filled in by the builder calls. -/
structure Model where
  name : String
  version : String
  directory : String
  TMpackets : List TMPacket
  commands : List Command
  dataTypes : List DataType
  calibrations : List Calib
deriving DecidableEq

/-- `YAMCSMDBGen.addTMTC`: dispatches on the runtime class of the entry —
`Command` first, then `TMPacket`; anything else raises a bare
`Exception("Expecting TM packet or command")`.  The returned model is the
state of the object when the call returns (unchanged when it raises). -/
def addTMTC (m : Model) (tmtc : TMTCEntry) : Option PyError × Model :=
  match tmtc with
  | .command c => (none, { m with commands := m.commands ++ [c] })
  | .packet p => (none, { m with TMpackets := m.TMpackets ++ [p] })
  | .base _ _ => (some (.exception "Expecting TM packet or command"), m)

/-- `YAMCSMDBGen.addPrimitiveType`: constructs a `PrimitiveDataType` (which
may raise `UnknownNativeTypeError`) and appends it; on a raise the state is
unchanged because the constructor runs before the append. -/
def addPrimitiveType (m : Model) (paramType : String) : Option PyError × Model :=
  match PrimitiveDataType paramType with
  | .error e => (some e, m)
  | .ok dt => (none, { m with dataTypes := m.dataTypes ++ [dt] })

/-- `YAMCSMDBGen.addEnumType`: appends the enumerated data type and its
parallel calibration record; the `EnumDataType` constructor runs first, so a
raise leaves both collections unchanged. -/
def addEnumType (m : Model) (enumName enumType : String) (values : EnumValues) : Option PyError × Model :=
  match EnumDataType enumName enumType with
  | .error e => (some e, m)
  | .ok dt => (none, { m with dataTypes := m.dataTypes ++ [dt], calibrations := m.calibrations ++ [EnumCalib enumName values] })

/-- `YAMCSMDBGen.addArrayType`. -/
def addArrayType (m : Model) (arrayName membersType : String) : Option PyError × Model :=
  (none, { m with dataTypes := m.dataTypes ++ [ArrayDataType arrayName membersType] })

/-- `YAMCSMDBGen.addAggregateType`. -/
def addAggregateType (m : Model) (aggName : String) (members : List (String × String)) : Option PyError × Model :=
  (none, { m with dataTypes := m.dataTypes ++ [AggregateDataType aggName members] })

/-- `'string' in name`: Python substring membership, via `splitOn` (the
pattern occurs in `name` iff splitting on it produces more than one piece). -/
def strContains (s pat : String) : Bool :=
  (s.splitOn pat).length != 1

/-- The loop body of `reset`: add every `TYPES_MAP` key that does not contain
`'string'` as a primitive type, stopping if an add raises (none does). -/
def _resetAdds : Model → List (String × (String × String × String)) → Option PyError × Model
  | m, [] => (none, m)
  | m, (name, _) :: rest =>
    if strContains name "string" then _resetAdds m rest
    else
      match addPrimitiveType m name with
      | (some e, m2) => (some e, m2)
      | (none, m2) => _resetAdds m2 rest

/-- `YAMCSMDBGen.reset`: empties the four collections, then pre-fills the
data types with all non-string native types. -/
def reset (m : Model) : Option PyError × Model :=
  _resetAdds { m with TMpackets := [], commands := [], dataTypes := [], calibrations := [] } TYPES_MAP

/-- `YAMCSMDBGen.__init__`: records name/version/directory and resets. -/
def mkYAMCSMDBGen (name version directory : String) : Option PyError × Model :=
  reset { name := name, version := version, directory := directory, TMpackets := [], commands := [], dataTypes := [], calibrations := [] }

/-- `typeName[:typeName.rfind('[')]` when a `[` occurs, otherwise the whole
name: the base name used by `_isTypeDeclared`, ignoring an array suffix. -/
def _baseName (typeName : String) : String :=
  if typeName.data.contains '[' then
    ⟨((typeName.data.reverse.dropWhile (fun c => c ≠ '[')).drop 1).reverse⟩
  else typeName

/-- `YAMCSMDBGen._isTypeDeclared`: is the base name (array suffix stripped)
the name of some declared data type. -/
def _isTypeDeclared (m : Model) (typeName : String) : Bool :=
  m.dataTypes.any (fun dt => dt.name = _baseName typeName)

/-- First loop of `validate`, inner iteration: the first parameter of the
entry whose type is not declared raises `UndeclaredTypeError`. -/
def _checkParamsDeclared (m : Model) (tmtcName : String) : List Parameter → Option PyError
  | [] => none
  | q :: rest =>
    if _isTypeDeclared m q.typeName then _checkParamsDeclared m tmtcName rest
    else some (.undeclaredTypeError ("TMTC object " ++ tmtcName ++ " contains parameter " ++ q.name ++ " with undeclared type " ++ q.typeName))

/-- First loop of `validate`, outer iteration over `(name, params)` views of
the entries of `self.TMpackets + self.commands`. -/
def _checkTMTCList (m : Model) : List (String × List Parameter) → Option PyError
  | [] => none
  | (nm, ps) :: rest =>
    match _checkParamsDeclared m nm ps with
    | some e => some e
    | none => _checkTMTCList m rest

/-- First loop of `validate`: every parameter type of every TM packet and
command must be declared. -/
def _checkTMTCTypes (m : Model) : Option PyError :=
  _checkTMTCList m (m.TMpackets.map (fun p => (p.name, p.params)) ++ m.commands.map (fun c => (c.name, c.params)))

/-- Second loop of `validate`, aggregate case: every member type must be
declared. -/
def _checkMembersDeclared (m : Model) (dtName : String) : List (String × String) → Option PyError
  | [] => none
  | (mn, mt) :: rest =>
    if _isTypeDeclared m mt then _checkMembersDeclared m dtName rest
    else some (.undeclaredTypeError ("Member type " ++ mt ++ " for member " ++ mn ++ " in aggregate type " ++ dtName ++ " not found in existing data types"))

/-- Second loop of `validate`: referenced types inside declared data types —
array element types and aggregate member types must be declared. -/
def _checkDataTypeRefs (m : Model) : List DataType → Option PyError
  | [] => none
  | dt :: rest =>
    match dt.kind with
    | .array el =>
      if _isTypeDeclared m el then _checkDataTypeRefs m rest
      else some (.undeclaredTypeError ("Array member type " ++ el ++ " for array type " ++ dt.name ++ " not found in existing data types"))
    | .aggregate mems =>
      match _checkMembersDeclared m dt.name mems with
      | some e => some e
      | none => _checkDataTypeRefs m rest
    | .plain => _checkDataTypeRefs m rest

/-- `validate.check_conflicts`, with the growing `names` set as an explicit
accumulator: the first item whose name was already seen raises
`NameConflictError`. -/
def check_conflicts_aux (category_name : String) : List String → List String → Option PyError
  | [], _ => none
  | n :: rest, names =>
    if n ∈ names then some (.nameConflictError ("Name conflict in " ++ category_name ++ ": " ++ n ++ " is used multiple times"))
    else check_conflicts_aux category_name rest (n :: names)

/-- `validate.check_conflicts(items, category_name)` applied to the item
names. -/
def check_conflicts (category_name : String) (itemNames : List String) : Option PyError :=
  check_conflicts_aux category_name itemNames []

/-- The two per-entry loops of `validate`: parameter-name conflicts scoped to
each entry's own parameter list (`catPrefix` is `"parameters of TM packet "`
or `"parameters of command "`). -/
def _checkEntriesParamConflicts (catPrefix : String) : List (String × List Parameter) → Option PyError
  | [] => none
  | (nm, ps) :: rest =>
    match check_conflicts (catPrefix ++ nm) (ps.map Parameter.name) with
    | some e => some e
    | none => _checkEntriesParamConflicts catPrefix rest

/-- One `NAME_REPLACE_MAP` entry applied to one character. -/
def _replace_char (p : Char × Char) (c : Char) : Char :=
  if c = p.1 then p.2 else c

/-- One `NAME_REPLACE_MAP` entry applied to a string:
`obj.replace(old_char, new_char)` for single-character entries is
character-wise substitution. -/
def _replace_chars1 (p : Char × Char) (s : String) : String :=
  ⟨s.data.map (_replace_char p)⟩

/-- `validate._replace_invalid_chars_in_object` on a `str`: every entry of
`NAME_REPLACE_MAP` applied in order. -/
def _replace_invalid_chars_str (s : String) : String :=
  NAME_REPLACE_MAP.foldl (fun acc p => _replace_chars1 p acc) s

/-- The sanitization pass on a `PyVal`: strings are replaced, ints are
returned unchanged (an `int` is not a `str`/`list` and has no `__dict__`). -/
def _replace_invalid_chars_pyval : PyVal → PyVal
  | .int i => .int i
  | .str s => .str (_replace_invalid_chars_str s)

/-- The sanitization pass on an optional value (`None` is returned
unchanged). -/
def _replace_invalid_chars_opt : Option PyVal → Option PyVal
  | none => none
  | some v => some (_replace_invalid_chars_pyval v)

/-- The sanitization pass on an optional string field. -/
def _replace_invalid_chars_opt_str : Option String → Option String
  | none => none
  | some s => some (_replace_invalid_chars_str s)

/-- The sanitization pass on a `Parameter` (all attributes visited). -/
def _replace_invalid_chars_param (q : Parameter) : Parameter :=
  { name := _replace_invalid_chars_str q.name,
    typeName := _replace_invalid_chars_str q.typeName,
    default := _replace_invalid_chars_opt q.default,
    min := _replace_invalid_chars_opt q.min,
    max := _replace_invalid_chars_opt q.max }

/-- The sanitization pass on the subclass attribute of a `DataType`: an
array's `elType` string is visited, but an aggregate's `members` dict is
returned unchanged — a Python `dict` is not a `str`/`list` and has no
`__dict__`, so the reflective pass does not descend into it. -/
def _replace_invalid_chars_kind : DTKind → DTKind
  | .plain => .plain
  | .array el => .array (_replace_invalid_chars_str el)
  | .aggregate mems => .aggregate mems

/-- The sanitization pass on a `DataType`. -/
def _replace_invalid_chars_dataType (dt : DataType) : DataType :=
  { name := _replace_invalid_chars_str dt.name,
    engType := _replace_invalid_chars_str dt.engType,
    rawType := _replace_invalid_chars_str dt.rawType,
    encoding := _replace_invalid_chars_str dt.encoding,
    calibration := _replace_invalid_chars_opt_str dt.calibration,
    kind := _replace_invalid_chars_kind dt.kind }

/-- The sanitization pass on a `Calib` (name, kind and both value lists
visited; ints inside the lists are unchanged). -/
def _replace_invalid_chars_calib (c : Calib) : Calib :=
  { name := _replace_invalid_chars_str c.name,
    kind := _replace_invalid_chars_str c.kind,
    calibs1 := c.calibs1.map _replace_invalid_chars_pyval,
    calibs2 := c.calibs2.map _replace_invalid_chars_pyval }

/-- The sanitization pass on a `TMPacket` (`id` is an int, unchanged). -/
def _replace_invalid_chars_packet (p : TMPacket) : TMPacket :=
  { name := _replace_invalid_chars_str p.name,
    params := p.params.map _replace_invalid_chars_param,
    id := p.id,
    freq := _replace_invalid_chars_opt p.freq }

/-- The sanitization pass on a `Command`. -/
def _replace_invalid_chars_command (c : Command) : Command :=
  { name := _replace_invalid_chars_str c.name,
    params := c.params.map _replace_invalid_chars_param,
    opcode := _replace_invalid_chars_pyval c.opcode }

/-- The four reassignments at the end of `validate`: the recursive
sanitization pass applied to TM packets, commands, data types and
calibrations. -/
def _replace_invalid_chars_model (m : Model) : Model :=
  { m with
    TMpackets := m.TMpackets.map _replace_invalid_chars_packet,
    commands := m.commands.map _replace_invalid_chars_command,
    dataTypes := m.dataTypes.map _replace_invalid_chars_dataType,
    calibrations := m.calibrations.map _replace_invalid_chars_calib }

/-- `YAMCSMDBGen.validate`, in source order: undeclared-type checks on entry
parameters, then on array/aggregate references; name-conflict checks on the
four collections, then on each packet's and each command's own parameters;
finally the mutating sanitization pass.  The second component is the state of
the object when the call returns (the state at the point of a raise is the
unmutated one, since every raise precedes the sanitization pass). -/
def validate (m : Model) : Option PyError × Model :=
  match _checkTMTCTypes m with
  | some e => (some e, m)
  | none =>
    match _checkDataTypeRefs m m.dataTypes with
    | some e => (some e, m)
    | none =>
      match check_conflicts "datatypes" (m.dataTypes.map DataType.name) with
      | some e => (some e, m)
      | none =>
        match check_conflicts "TM packets" (m.TMpackets.map TMPacket.name) with
        | some e => (some e, m)
        | none =>
          match check_conflicts "commands" (m.commands.map Command.name) with
          | some e => (some e, m)
          | none =>
            match check_conflicts "calibrations" (m.calibrations.map Calib.name) with
            | some e => (some e, m)
            | none =>
              match _checkEntriesParamConflicts "parameters of TM packet " (m.TMpackets.map (fun p => (p.name, p.params))) with
              | some e => (some e, m)
              | none =>
                match _checkEntriesParamConflicts "parameters of command " (m.commands.map (fun c => (c.name, c.params))) with
                | some e => (some e, m)
                | none => (none, _replace_invalid_chars_model m)

/-- `headers["General"]`. -/
def General_header : String := "format version,name,document version"

/-- `headers["DataTypes"]`. -/
def DataTypes_header : String := "type name,eng type,raw type,encoding,eng unit,calibration,description"

/-- `headers["Containers"]` (the fixed abstract `PKT` record is part of the
header text). -/
def Containers_header : String := "container name,parent,condition,flags,entry,position,size in bits,expected interval,description\nPKT,,,,,,,\n,,,,PacketType,0,,\n,,,,PacketID,0,,\n"

/-- `headers["Parameters"]` (the fixed `PacketType`/`PacketID` parameter rows
are part of the header text, their type interpolated from the class
attributes). -/
def Parameters_header : String :=
  "parameter name,data type,description,namespace:MDB:OPS Name\nPacketType," ++ PACKETTYPE_TYPE ++ ",,\nPacketID," ++ PACKETID_TYPE ++ ",,"

/-- `headers["Calibration"]`. -/
def Calibration_header : String := "calibrator name,type,calib1,calib2"

/-- `headers["Commands"]`. -/
def Commands_header : String := "command name,parent,argument assignment,flags,argument name,position,data type,default value,range low,range high,description"

/-- `templates["General"]` instantiated. -/
def General_line (m : Model) : String := "7.1," ++ m.name ++ "," ++ m.version

/-- `TYPES_MAP[t][2]`, the encoding field of a `TYPES_MAP` entry (total here;
Python would raise `KeyError` on a missing key, which cannot happen at the
two call sites, whose argument is `"U32"`). -/
def _typesMapEncoding (t : String) : String :=
  match _lookupExact t TYPES_MAP with
  | some ti => ti.2.2
  | none => ""

/-- `templates["DataTypes_type"]` instantiated: the encoding field is wrapped
in double quotes when it contains a comma; a `None` calibration renders
empty (`dt.calibration or ""`). -/
def DataTypes_type_line (dt : DataType) : String :=
  dt.name ++ "," ++ dt.engType ++ "," ++ dt.rawType ++ ","
    ++ (if dt.encoding.data.contains ',' then "\"" ++ dt.encoding ++ "\"" else dt.encoding)
    ++ ",," ++ (dt.calibration.getD "") ++ ","

/-- `templates["Containers_packet"]` instantiated: parent offset is the sum
of the `PACKETTYPE_TYPE` and `PACKETID_TYPE` encoding widths, the condition
matches `PACKETTYPE_TLM` and this packet's id, and a `None` frequency renders
empty. -/
def Containers_packet_line (p : TMPacket) : String :=
  p.name ++ ",PKT:" ++ toString (pyIntOfDigits (_typesMapEncoding PACKETTYPE_TYPE) + pyIntOfDigits (_typesMapEncoding PACKETID_TYPE))
    ++ ",&(PacketType==" ++ toString PACKETTYPE_TLM ++ ";PacketID==" ++ toString p.id ++ "),,,,," ++ pyOptStr p.freq

/-- `templates["Containers_param"]` instantiated. -/
def Containers_param_line (q : Parameter) : String :=
  ",,,," ++ q.name ++ ",0,,,"

/-- `param.name.split('[')[0]`: the prefix of the name before the first `[`
(the whole name when there is none). -/
def _splitHeadChars : List Char → List Char
  | [] => []
  | c :: cs => if c = '[' then [] else c :: _splitHeadChars cs

/-- `templates["Parameters_param"]` instantiated: the bracketed array suffix
is stripped from the parameter name. -/
def Parameters_param_line (q : Parameter) : String :=
  (⟨_splitHeadChars q.name.data⟩ : String) ++ "," ++ q.typeName ++ ",,"

/-- `templates["Calibration_start"]` instantiated with the first value pair
(`calibs1[0]`/`calibs2[0]`; Python raises `IndexError` on empty lists, which
the generator never builds — modelled with a default). -/
def Calibration_start_line (c : Calib) : String :=
  c.name ++ "," ++ c.kind ++ "," ++ pyStr (c.calibs1.headD (.str "")) ++ "," ++ pyStr (c.calibs2.headD (.str ""))

/-- `templates["Calibration_val"]` instantiated. -/
def Calibration_val_line (v : PyVal × PyVal) : String :=
  ",," ++ pyStr v.1 ++ "," ++ pyStr v.2

/-- `templates["Commands_abstractCommand"]` (fixed text, opcode type
interpolated from the class attribute). -/
def Commands_abstractCommand : String :=
  "COMMAND,,,A,,,,,,,\n,,,,OpCode,0," ++ OPCODE_TYPE ++ ",,,,"

/-- `templates["Commands_command"]` instantiated. -/
def Commands_command_line (c : Command) : String :=
  c.name ++ ",COMMAND,OpCode=" ++ pyStr c.opcode ++ ",,,,,,,,"

/-- `templates["Commands_arg"]` instantiated: absent default/min/max render
as empty fields. -/
def Commands_arg_line (q : Parameter) : String :=
  ",,,," ++ q.name ++ ",0," ++ q.typeName ++ "," ++ pyOptStr q.default ++ "," ++ pyOptStr q.min ++ "," ++ pyOptStr q.max ++ ","

/-- `generalLines`. -/
def generalLines (m : Model) : List String :=
  [General_header, General_line m]

/-- `dataTypesLines`: one row per declared data type. -/
def dataTypesLines (m : Model) : List String :=
  DataTypes_header :: m.dataTypes.map DataTypes_type_line

/-- `containersLines`: per packet, its container row, one row per parameter,
and a blank separator row. -/
def containersLines (m : Model) : List String :=
  Containers_header :: m.TMpackets.flatMap (fun p => Containers_packet_line p :: p.params.map Containers_param_line ++ [""])

/-- `parametersLines`: one row per parameter occurring in any packet (built
in the same loop as `containersLines` in the source, with no blank
separators). -/
def parametersLines (m : Model) : List String :=
  Parameters_header :: m.TMpackets.flatMap (fun p => p.params.map Parameters_param_line)

/-- `calibrationLines`: per calibration, the start row with the first value
pair, continuation rows for the remaining pairs (`enumerate(zip(..))` with
index 0 skipped), and a blank separator row. -/
def calibrationLines (m : Model) : List String :=
  Calibration_header :: m.calibrations.flatMap (fun c =>
    Calibration_start_line c :: ((c.calibs1.zip c.calibs2).drop 1).map Calibration_val_line ++ [""])

/-- `commandsLines`: the abstract command record and a blank row, then per
command its row, one row per argument, and a blank separator row. -/
def commandsLines (m : Model) : List String :=
  Commands_header :: Commands_abstractCommand :: "" :: m.commands.flatMap (fun c =>
    Commands_command_line c :: c.params.map Commands_arg_line ++ [""])

/-- `sheetsLines_map`: the six generated tables, in source order. -/
def sheetsLines_map (m : Model) : List (String × List String) :=
  [("General", generalLines m),
   ("DataTypes", dataTypesLines m),
   ("Containers", containersLines m),
   ("Parameters", parametersLines m),
   ("Calibration", calibrationLines m),
   ("Commands", commandsLines m)]

/-- `YAMCSMDBGen.generateCSVs`, up to the file writes: validates (raising any
validation error), then produces the six tables from the validated — hence
sanitized — model. -/
def generateCSVs (m : Model) : Except PyError (List (String × List String)) :=
  match validate m with
  | (some e, _) => .error e
  | (none, m2) => .ok (sheetsLines_map m2)

/-! ## Specification-side predicates -/

/-- Are the references inside one declared data type (array element type,
aggregate member types) all declared in `m`. -/
def dtRefsOk (m : Model) (dt : DataType) : Bool :=
  match dt.kind with
  | .plain => true
  | .array el => _isTypeDeclared m el
  | .aggregate mems => mems.all (fun nt => _isTypeDeclared m nt.2)

/-- Every type name referenced by a TM-packet or command parameter, an array
element type, or an aggregate member type is declared in the data-type
registry (in the sense of `_isTypeDeclared`, i.e. ignoring a trailing
bracketed suffix). -/
def refsDeclared (m : Model) : Bool :=
  (m.TMpackets.all fun p => p.params.all fun q => _isTypeDeclared m q.typeName) &&
  ((m.commands.all fun c => c.params.all fun q => _isTypeDeclared m q.typeName) &&
   m.dataTypes.all (dtRefsOk m))

/-- Two data types, two TM packets, two commands, or two calibrations carry
the same name. -/
@[reducible] def dupIn4Categories (m : Model) : Prop :=
  ¬ (m.dataTypes.map DataType.name).Nodup ∨ ¬ (m.TMpackets.map TMPacket.name).Nodup ∨
  ¬ (m.commands.map Command.name).Nodup ∨ ¬ (m.calibrations.map Calib.name).Nodup

/-- Two items of some conflict-checked scope — one of the four global
categories, or one entry's own parameter list — carry the same name. -/
@[reducible] def dupInSomeScope (m : Model) : Prop :=
  dupIn4Categories m ∨
  (∃ p ∈ m.TMpackets, ¬ (p.params.map Parameter.name).Nodup) ∨
  (∃ c ∈ m.commands, ¬ (c.params.map Parameter.name).Nodup)

/-- Is an optional error a `NameConflictError`. -/
def isNameConflict : Option PyError → Bool
  | some (.nameConflictError _) => true
  | _ => false

/-! ## Lemmas about the validator's checks -/

/-- If every parameter in the list has a declared type, the first
`validate` loop accepts it. -/
theorem checkParamsDeclared_eq_none (m : Model) (nm : String) (ps : List Parameter)
    (h : ps.all (fun q => _isTypeDeclared m q.typeName) = true) :
    _checkParamsDeclared m nm ps = none := by
  induction ps with
  | nil => rfl
  | cons q rest ih =>
    simp only [List.all_cons, Bool.and_eq_true] at h
    simp [_checkParamsDeclared, h.1, ih h.2]

/-- If a parameter list is rejected, the error is an `UndeclaredTypeError`. -/
theorem checkParamsDeclared_shape (m : Model) (nm : String) (ps : List Parameter) (e : PyError)
    (h : _checkParamsDeclared m nm ps = some e) :
    ∃ msg, e = .undeclaredTypeError msg := by
  induction ps with
  | nil => simp [_checkParamsDeclared] at h
  | cons q rest ih =>
    by_cases hd : _isTypeDeclared m q.typeName = true
    · simp [_checkParamsDeclared, hd] at h
      exact ih h
    · simp [_checkParamsDeclared, hd] at h
      exact ⟨_, h.symm⟩

/-- If every listed entry has only declared parameter types, the first
`validate` loop accepts the whole list. -/
theorem checkTMTCList_eq_none (m : Model) (l : List (String × List Parameter))
    (h : ∀ x ∈ l, x.2.all (fun q => _isTypeDeclared m q.typeName) = true) :
    _checkTMTCList m l = none := by
  induction l with
  | nil => rfl
  | cons x rest ih =>
    obtain ⟨nm, ps⟩ := x
    have h1 := checkParamsDeclared_eq_none m nm ps (h (nm, ps) (by simp))
    simp [_checkTMTCList, h1, ih (fun y hy => h y (by simp [hy]))]

/-- If the first `validate` loop rejects, the error is an
`UndeclaredTypeError`. -/
theorem checkTMTCList_shape (m : Model) (l : List (String × List Parameter)) (e : PyError)
    (h : _checkTMTCList m l = some e) :
    ∃ msg, e = .undeclaredTypeError msg := by
  induction l with
  | nil => simp [_checkTMTCList] at h
  | cons x rest ih =>
    obtain ⟨nm, ps⟩ := x
    cases hc : _checkParamsDeclared m nm ps with
    | some e2 =>
      simp [_checkTMTCList, hc] at h
      exact h ▸ checkParamsDeclared_shape m nm ps e2 hc
    | none =>
      simp [_checkTMTCList, hc] at h
      exact ih h

/-- `refsDeclared` makes the first `validate` loop accept. -/
theorem checkTMTCTypes_eq_none (m : Model) (h : refsDeclared m = true) :
    _checkTMTCTypes m = none := by
  simp only [refsDeclared, Bool.and_eq_true] at h
  apply checkTMTCList_eq_none
  intro x hx
  simp only [List.mem_append, List.mem_map] at hx
  rcases hx with ⟨p, hp, rfl⟩ | ⟨c, hc, rfl⟩
  · exact List.all_eq_true.1 h.1 p hp
  · exact List.all_eq_true.1 h.2.1 c hc

/-- If every member type of an aggregate is declared, the member check
accepts. -/
theorem checkMembersDeclared_eq_none (m : Model) (dtName : String) (mems : List (String × String))
    (h : mems.all (fun nt => _isTypeDeclared m nt.2) = true) :
    _checkMembersDeclared m dtName mems = none := by
  induction mems with
  | nil => rfl
  | cons nt rest ih =>
    obtain ⟨mn, mt⟩ := nt
    simp only [List.all_cons, Bool.and_eq_true] at h
    simp [_checkMembersDeclared, h.1, ih h.2]

/-- If the member check rejects, the error is an `UndeclaredTypeError`. -/
theorem checkMembersDeclared_shape (m : Model) (dtName : String) (mems : List (String × String)) (e : PyError)
    (h : _checkMembersDeclared m dtName mems = some e) :
    ∃ msg, e = .undeclaredTypeError msg := by
  induction mems with
  | nil => simp [_checkMembersDeclared] at h
  | cons nt rest ih =>
    obtain ⟨mn, mt⟩ := nt
    by_cases hd : _isTypeDeclared m mt = true
    · simp [_checkMembersDeclared, hd] at h
      exact ih h
    · simp [_checkMembersDeclared, hd] at h
      exact ⟨_, h.symm⟩

/-- If every array element type and aggregate member type in the list is
declared, the second `validate` loop accepts. -/
theorem checkDataTypeRefs_eq_none (m : Model) (l : List DataType)
    (h : ∀ dt ∈ l, dtRefsOk m dt = true) :
    _checkDataTypeRefs m l = none := by
  induction l with
  | nil => rfl
  | cons dt rest ih =>
    have hd := h dt (by simp)
    have hrest := ih (fun d hdm => h d (by simp [hdm]))
    cases hk : dt.kind with
    | plain => simp [_checkDataTypeRefs, hk, hrest]
    | array el =>
      simp only [dtRefsOk, hk] at hd
      simp [_checkDataTypeRefs, hk, hd, hrest]
    | aggregate mems =>
      simp only [dtRefsOk, hk] at hd
      simp [_checkDataTypeRefs, hk, checkMembersDeclared_eq_none m dt.name mems hd, hrest]

/-- If the second `validate` loop rejects, the error is an
`UndeclaredTypeError`. -/
theorem checkDataTypeRefs_shape (m : Model) (l : List DataType) (e : PyError)
    (h : _checkDataTypeRefs m l = some e) :
    ∃ msg, e = .undeclaredTypeError msg := by
  induction l with
  | nil => simp [_checkDataTypeRefs] at h
  | cons dt rest ih =>
    cases hk : dt.kind with
    | plain =>
      simp [_checkDataTypeRefs, hk] at h
      exact ih h
    | array el =>
      by_cases hd : _isTypeDeclared m el = true
      · simp [_checkDataTypeRefs, hk, hd] at h
        exact ih h
      · simp [_checkDataTypeRefs, hk, hd] at h
        exact ⟨_, h.symm⟩
    | aggregate mems =>
      cases hc : _checkMembersDeclared m dt.name mems with
      | some e2 =>
        simp [_checkDataTypeRefs, hk, hc] at h
        exact h ▸ checkMembersDeclared_shape m dt.name mems e2 hc
      | none =>
        simp [_checkDataTypeRefs, hk, hc] at h
        exact ih h

/-- The conflict checker accepts exactly when the remaining names are
pairwise distinct and none of them was already seen. -/
theorem check_conflicts_aux_eq_none_iff (cat : String) (l seen : List String) :
    check_conflicts_aux cat l seen = none ↔ l.Nodup ∧ ∀ x ∈ l, x ∉ seen := by
  induction l generalizing seen with
  | nil => simp [check_conflicts_aux]
  | cons n rest ih =>
    by_cases hn : n ∈ seen
    · rw [check_conflicts_aux, if_pos hn]
      constructor
      · intro h
        exact Option.noConfusion h
      · rintro ⟨h1, h2⟩
        exact absurd hn (h2 n (by simp))
    · rw [check_conflicts_aux, if_neg hn, ih]
      simp only [List.nodup_cons, List.mem_cons]
      constructor
      · rintro ⟨h1, h2⟩
        have hnr : n ∉ rest := fun hmem => h2 n hmem (by simp)
        refine ⟨⟨hnr, h1⟩, ?_⟩
        rintro x (rfl | hx)
        · exact hn
        · exact fun hs => h2 x hx (Or.inr hs)
      · rintro ⟨⟨hnr, h1⟩, h2⟩
        refine ⟨h1, ?_⟩
        intro x hx hxs
        rcases hxs with rfl | hxs2
        · exact hnr hx
        · exact h2 x (Or.inr hx) hxs2

/-- `check_conflicts` accepts exactly the lists of pairwise-distinct names. -/
theorem check_conflicts_eq_none_iff (cat : String) (names : List String) :
    check_conflicts cat names = none ↔ names.Nodup := by
  rw [check_conflicts, check_conflicts_aux_eq_none_iff]
  simp

/-- If the conflict checker rejects, the error is a `NameConflictError`. -/
theorem check_conflicts_aux_shape (cat : String) (l seen : List String) (e : PyError)
    (h : check_conflicts_aux cat l seen = some e) :
    ∃ msg, e = .nameConflictError msg := by
  induction l generalizing seen with
  | nil => simp [check_conflicts_aux] at h
  | cons n rest ih =>
    by_cases hn : n ∈ seen
    · simp [check_conflicts_aux, hn] at h
      exact ⟨_, h.symm⟩
    · rw [check_conflicts_aux, if_neg hn] at h
      exact ih _ h

/-- `check_conflicts` shape: a rejection is a `NameConflictError`. -/
theorem check_conflicts_shape (cat : String) (names : List String) (e : PyError)
    (h : check_conflicts cat names = some e) :
    ∃ msg, e = .nameConflictError msg :=
  check_conflicts_aux_shape cat names [] e h

/-- If every listed entry has pairwise-distinct parameter names, the
per-entry conflict loop accepts. -/
theorem entriesParamConflicts_eq_none (pre : String) (l : List (String × List Parameter))
    (h : ∀ x ∈ l, ((x.2).map Parameter.name).Nodup) :
    _checkEntriesParamConflicts pre l = none := by
  induction l with
  | nil => rfl
  | cons x rest ih =>
    obtain ⟨nm, ps⟩ := x
    have h1 : check_conflicts (pre ++ nm) (ps.map Parameter.name) = none :=
      (check_conflicts_eq_none_iff _ _).2 (h (nm, ps) (by simp))
    simp [_checkEntriesParamConflicts, h1, ih (fun y hy => h y (by simp [hy]))]

/-- If the per-entry conflict loop rejects, the error is a
`NameConflictError` and some listed entry has a repeated parameter name. -/
theorem entriesParamConflicts_some (pre : String) (l : List (String × List Parameter)) (e : PyError)
    (h : _checkEntriesParamConflicts pre l = some e) :
    (∃ msg, e = .nameConflictError msg) ∧ ∃ x ∈ l, ¬ ((x.2).map Parameter.name).Nodup := by
  induction l with
  | nil => simp [_checkEntriesParamConflicts] at h
  | cons x rest ih =>
    obtain ⟨nm, ps⟩ := x
    cases hc : check_conflicts (pre ++ nm) (ps.map Parameter.name) with
    | some e2 =>
      simp [_checkEntriesParamConflicts, hc] at h
      refine ⟨h ▸ check_conflicts_shape _ _ e2 hc, ⟨(nm, ps), by simp, ?_⟩⟩
      intro hnd
      rw [(check_conflicts_eq_none_iff _ _).2 hnd] at hc
      exact Option.noConfusion hc
    | none =>
      simp [_checkEntriesParamConflicts, hc] at h
      obtain ⟨hsh, y, hy, hnd⟩ := ih h
      exact ⟨hsh, y, by simp [hy], hnd⟩

/-- Whatever `validate` does, the returned state is either the argument
(when it raises) or the sanitized argument (when it succeeds, and then the
error component is `none`). -/
theorem validate_snd_cases (m : Model) :
    (validate m).2 = m ∨ ((validate m).1 = none ∧ (validate m).2 = _replace_invalid_chars_model m) := by
  unfold validate
  repeat' split
  all_goals simp

/-! ## Idempotence of the sanitization pass -/

/-- Replacing one character according to a replacement pair is idempotent. -/
theorem replace_char_idem (p : Char × Char) (c : Char) :
    _replace_char p (_replace_char p c) = _replace_char p c := by
  by_cases h : c = p.1 <;> simp [_replace_char, h]

/-- Mapping an idempotent function twice equals mapping it once. -/
theorem map_idem {α : Type} (f : α → α) (h : ∀ a, f (f a) = f a) (l : List α) :
    (l.map f).map f = l.map f := by
  induction l with
  | nil => rfl
  | cons a t ih => simp [h, ih]

/-- One replacement pair applied to a string is idempotent. -/
theorem replace_chars1_idem (p : Char × Char) (s : String) :
    _replace_chars1 p (_replace_chars1 p s) = _replace_chars1 p s := by
  cases s with
  | mk l =>
    show (⟨(l.map (_replace_char p)).map (_replace_char p)⟩ : String) = ⟨l.map (_replace_char p)⟩
    rw [map_idem _ (replace_char_idem p) l]

/-- The string sanitization is idempotent. -/
theorem replace_str_idem (s : String) :
    _replace_invalid_chars_str (_replace_invalid_chars_str s) = _replace_invalid_chars_str s := by
  show _replace_chars1 ('.', '_') (_replace_chars1 ('.', '_') s) = _replace_chars1 ('.', '_') s
  exact replace_chars1_idem _ s

/-- The sanitization of a `PyVal` is idempotent. -/
theorem replace_pyval_idem (v : PyVal) :
    _replace_invalid_chars_pyval (_replace_invalid_chars_pyval v) = _replace_invalid_chars_pyval v := by
  cases v <;> simp [_replace_invalid_chars_pyval, replace_str_idem]

/-- The sanitization of an optional value is idempotent. -/
theorem replace_opt_idem (v : Option PyVal) :
    _replace_invalid_chars_opt (_replace_invalid_chars_opt v) = _replace_invalid_chars_opt v := by
  cases v <;> simp [_replace_invalid_chars_opt, replace_pyval_idem]

/-- The sanitization of an optional string is idempotent. -/
theorem replace_opt_str_idem (v : Option String) :
    _replace_invalid_chars_opt_str (_replace_invalid_chars_opt_str v) = _replace_invalid_chars_opt_str v := by
  cases v <;> simp [_replace_invalid_chars_opt_str, replace_str_idem]

/-- The sanitization of a `Parameter` is idempotent. -/
theorem replace_param_idem (q : Parameter) :
    _replace_invalid_chars_param (_replace_invalid_chars_param q) = _replace_invalid_chars_param q := by
  simp [_replace_invalid_chars_param, replace_str_idem, replace_opt_idem]

/-- The sanitization of a `DTKind` is idempotent. -/
theorem replace_kind_idem (k : DTKind) :
    _replace_invalid_chars_kind (_replace_invalid_chars_kind k) = _replace_invalid_chars_kind k := by
  cases k <;> simp [_replace_invalid_chars_kind, replace_str_idem]

/-- The sanitization of a `DataType` is idempotent. -/
theorem replace_dataType_idem (dt : DataType) :
    _replace_invalid_chars_dataType (_replace_invalid_chars_dataType dt) = _replace_invalid_chars_dataType dt := by
  simp [_replace_invalid_chars_dataType, replace_str_idem, replace_opt_str_idem, replace_kind_idem]

/-- The sanitization of a `Calib` is idempotent. -/
theorem replace_calib_idem (c : Calib) :
    _replace_invalid_chars_calib (_replace_invalid_chars_calib c) = _replace_invalid_chars_calib c := by
  simp [_replace_invalid_chars_calib, replace_str_idem, map_idem _ replace_pyval_idem]

/-- The sanitization of a `TMPacket` is idempotent. -/
theorem replace_packet_idem (p : TMPacket) :
    _replace_invalid_chars_packet (_replace_invalid_chars_packet p) = _replace_invalid_chars_packet p := by
  simp [_replace_invalid_chars_packet, replace_str_idem, replace_opt_idem, map_idem _ replace_param_idem]

/-- The sanitization of a `Command` is idempotent. -/
theorem replace_command_idem (c : Command) :
    _replace_invalid_chars_command (_replace_invalid_chars_command c) = _replace_invalid_chars_command c := by
  simp [_replace_invalid_chars_command, replace_str_idem, replace_pyval_idem, map_idem _ replace_param_idem]

/-- `refsDeclared` makes the second `validate` loop accept. -/
theorem checkDataTypeRefs_of_refsDeclared (m : Model) (h : refsDeclared m = true) :
    _checkDataTypeRefs m m.dataTypes = none := by
  apply checkDataTypeRefs_eq_none
  intro dt hdt
  simp only [refsDeclared, Bool.and_eq_true] at h
  exact List.all_eq_true.1 h.2.2 dt hdt

/-! ## Claims -/

/-- C4: the recursive character-substitution (sanitization) pass of
`validate` is idempotent — applying it twice to any model leaves exactly the
same TM packets, commands, data types and calibrations as applying it once. -/
theorem sanitization_pass_idempotent (m : Model) :
    _replace_invalid_chars_model (_replace_invalid_chars_model m) = _replace_invalid_chars_model m := by
  simp [_replace_invalid_chars_model, map_idem _ replace_packet_idem, map_idem _ replace_command_idem,
    map_idem _ replace_dataType_idem, map_idem _ replace_calib_idem]

/-- C7: translating the unknown primitive token `U128` matches no exact key
and no pattern rule, so `addPrimitiveType` raises `UnknownNativeTypeError`
and leaves the data-type registry (indeed the whole model) unchanged. -/
theorem addPrimitiveType_unknown_token (m : Model) :
    addPrimitiveType m "U128" = (some (.unknownNativeTypeError "Native type is not supported"), m) := rfl

/-- C8: adding an entry that is neither a TM packet nor a command via
`addTMTC` fails synchronously at the add-call (the spec's
`MalformedArgument`, a bare `Exception` in the source) and changes nothing. -/
theorem addTMTC_rejects_base_entry (m : Model) (nm : String) (ps : List Parameter) :
    addTMTC m (.base nm ps) = (some (.exception "Expecting TM packet or command"), m) := rfl

/-- C9: if `validate` raises any error, the model state — TM packets,
commands, data types and calibrations — is exactly what it was before the
call: every check runs before the mutating sanitization pass. -/
theorem validate_raise_leaves_state (m : Model) (e : PyError) (h : (validate m).1 = some e) :
    (validate m).2 = m := by
  rcases validate_snd_cases m with h2 | ⟨h1, _⟩
  · exact h2
  · rw [h1] at h
    exact Option.noConfusion h

/-- A model whose only packet references an undeclared type (used to witness
C9 on an actually-failing `validate` call). -/
def mC9 : Model :=
  { name := "db", version := "1", directory := ".",
    TMpackets := [{ name := "p", params := [{ name := "q", typeName := "nope", default := none, min := none, max := none }], id := 0, freq := none }],
    commands := [], dataTypes := [], calibrations := [] }

/-- Witness for C9: `validate mC9` raises `UndeclaredTypeError`, and the
returned state equals the input. -/
theorem validate_raise_leaves_state_witness :
    (validate mC9).1 = some (.undeclaredTypeError "TMTC object p contains parameter q with undeclared type nope") ∧
    (validate mC9).2 = mC9 :=
  ⟨by decide, validate_raise_leaves_state mC9 (.undeclaredTypeError "TMTC object p contains parameter q with undeclared type nope") (by decide)⟩

/-- C1: if every type name referenced by any TM packet or command parameter,
by any array type's element type, and by any aggregate type's member types is
declared in the data-type registry (in the code's sense, ignoring a trailing
bracketed suffix), then `validate` never raises `UndeclaredTypeError`. -/
theorem validate_never_undeclared (m : Model) (h : refsDeclared m = true) (msg : String) :
    (validate m).1 ≠ some (.undeclaredTypeError msg) := by
  have e1 := checkTMTCTypes_eq_none m h
  have e2 := checkDataTypeRefs_of_refsDeclared m h
  unfold validate
  simp only [e1, e2]
  cases h3 : check_conflicts "datatypes" (m.dataTypes.map DataType.name) with
  | some e =>
    obtain ⟨msg2, rfl⟩ := check_conflicts_shape _ _ e h3
    simp
  | none =>
  cases h4 : check_conflicts "TM packets" (m.TMpackets.map TMPacket.name) with
  | some e =>
    obtain ⟨msg2, rfl⟩ := check_conflicts_shape _ _ e h4
    simp
  | none =>
  cases h5 : check_conflicts "commands" (m.commands.map Command.name) with
  | some e =>
    obtain ⟨msg2, rfl⟩ := check_conflicts_shape _ _ e h5
    simp
  | none =>
  cases h6 : check_conflicts "calibrations" (m.calibrations.map Calib.name) with
  | some e =>
    obtain ⟨msg2, rfl⟩ := check_conflicts_shape _ _ e h6
    simp
  | none =>
  cases h7 : _checkEntriesParamConflicts "parameters of TM packet " (m.TMpackets.map (fun p => (p.name, p.params))) with
  | some e =>
    obtain ⟨⟨msg2, rfl⟩, _⟩ := entriesParamConflicts_some _ _ e h7
    simp
  | none =>
  cases h8 : _checkEntriesParamConflicts "parameters of command " (m.commands.map (fun c => (c.name, c.params))) with
  | some e =>
    obtain ⟨⟨msg2, rfl⟩, _⟩ := entriesParamConflicts_some _ _ e h8
    simp
  | none => simp

/-- A small fully-declared model (one `U8` data type, one packet using it),
used to witness C1. -/
def mC1 : Model :=
  { name := "db", version := "1", directory := ".",
    TMpackets := [{ name := "p", params := [{ name := "q", typeName := "U8", default := none, min := none, max := none }], id := 0, freq := none }],
    commands := [],
    dataTypes := [{ name := "U8", engType := "uint", rawType := "uint", encoding := "8", calibration := none, kind := .plain }],
    calibrations := [] }

/-- Witness for C1: `mC1` satisfies the hypothesis and `validate` does not
produce an `UndeclaredTypeError` on it. -/
theorem validate_never_undeclared_witness :
    refsDeclared mC1 = true ∧ (validate mC1).1 ≠ some (.undeclaredTypeError "m") :=
  ⟨by decide, validate_never_undeclared mC1 (by decide) "m"⟩

/-- C2 (amended): in a model in which, additionally, every referenced type is
declared, two data types, two TM packets, two commands, or two calibrations
carrying the same name make `validate` raise `NameConflictError`, whether or
not the records' contents are structurally equal. -/
theorem validate_nameConflict_of_dup (m : Model) (h1 : refsDeclared m = true) (h2 : dupIn4Categories m) :
    ∃ msg, (validate m).1 = some (.nameConflictError msg) := by
  have e1 := checkTMTCTypes_eq_none m h1
  have e2 := checkDataTypeRefs_of_refsDeclared m h1
  unfold validate
  simp only [e1, e2]
  cases h3 : check_conflicts "datatypes" (m.dataTypes.map DataType.name) with
  | some e =>
    obtain ⟨msg2, rfl⟩ := check_conflicts_shape _ _ e h3
    exact ⟨msg2, by simp⟩
  | none =>
  have nd1 := (check_conflicts_eq_none_iff _ _).1 h3
  cases h4 : check_conflicts "TM packets" (m.TMpackets.map TMPacket.name) with
  | some e =>
    obtain ⟨msg2, rfl⟩ := check_conflicts_shape _ _ e h4
    exact ⟨msg2, by simp⟩
  | none =>
  have nd2 := (check_conflicts_eq_none_iff _ _).1 h4
  cases h5 : check_conflicts "commands" (m.commands.map Command.name) with
  | some e =>
    obtain ⟨msg2, rfl⟩ := check_conflicts_shape _ _ e h5
    exact ⟨msg2, by simp⟩
  | none =>
  have nd3 := (check_conflicts_eq_none_iff _ _).1 h5
  cases h6 : check_conflicts "calibrations" (m.calibrations.map Calib.name) with
  | some e =>
    obtain ⟨msg2, rfl⟩ := check_conflicts_shape _ _ e h6
    exact ⟨msg2, by simp⟩
  | none =>
  have nd4 := (check_conflicts_eq_none_iff _ _).1 h6
  rcases h2 with hd | hd | hd | hd
  · exact (hd nd1).elim
  · exact (hd nd2).elim
  · exact (hd nd3).elim
  · exact (hd nd4).elim

/-- A model with two identically-named (and structurally equal) `U8` data
types and nothing else, used to witness the amended C2. -/
def mC2w : Model :=
  { name := "db", version := "1", directory := ".",
    TMpackets := [], commands := [],
    dataTypes := [{ name := "U8", engType := "uint", rawType := "uint", encoding := "8", calibration := none, kind := .plain },
                  { name := "U8", engType := "uint", rawType := "uint", encoding := "8", calibration := none, kind := .plain }],
    calibrations := [] }

/-- Witness for the amended C2: an exact duplicate pair of data types in an
otherwise fully-declared model makes `validate` raise `NameConflictError`. -/
theorem validate_nameConflict_of_dup_witness :
    refsDeclared mC2w = true ∧ dupIn4Categories mC2w ∧
    ∃ msg, (validate mC2w).1 = some (.nameConflictError msg) :=
  ⟨by decide, by decide, validate_nameConflict_of_dup mC2w (by decide) (by decide)⟩

/-- A model with two identically-named data types and a packet whose
parameter type is undeclared: the declaration check fires first. -/
def mC2x : Model :=
  { name := "db", version := "1", directory := ".",
    TMpackets := [{ name := "p", params := [{ name := "q", typeName := "nope", default := none, min := none, max := none }], id := 0, freq := none }],
    commands := [],
    dataTypes := [{ name := "U8", engType := "uint", rawType := "uint", encoding := "8", calibration := none, kind := .plain },
                  { name := "U8", engType := "uint", rawType := "uint", encoding := "8", calibration := none, kind := .plain }],
    calibrations := [] }

/-- Counterexample to C2 as stated: `mC2x` has two data types sharing a name,
yet `validate` raises `UndeclaredTypeError`, not `NameConflictError` — the
type-declaration checks run before the conflict checks. -/
theorem validate_dup_without_nameConflict_cex :
    dupIn4Categories mC2x ∧
    (validate mC2x).1 = some (.undeclaredTypeError "TMTC object p contains parameter q with undeclared type nope") ∧
    isNameConflict (validate mC2x).1 = false :=
  ⟨by decide, by decide, by decide⟩

/-- A model whose two aggregate data types are named `a.b` and `a_b`: the
names differ before sanitization but coincide after it. -/
def mC10ab : Model :=
  { name := "db", version := "1", directory := ".",
    TMpackets := [], commands := [],
    dataTypes := [AggregateDataType "a.b" [], AggregateDataType "a_b" []],
    calibrations := [] }

/-- C10 (amended): `validate` raises `NameConflictError` only when two items
of some conflict-checked scope share the same caller-supplied
(pre-sanitization) name; and conflicts are checked on those names only — on
the model with data types `a.b` and `a_b`, `validate` succeeds even though
the sanitization pass then renames `a.b` to `a_b`, leaving two data types
with identical names in the validated model. -/
theorem nameConflict_only_from_presanitization_dup :
    (∀ (m : Model) (msg : String), (validate m).1 = some (.nameConflictError msg) → dupInSomeScope m) ∧
    ((validate mC10ab).1 = none ∧ (validate mC10ab).2.dataTypes.map DataType.name = ["a_b", "a_b"] ∧
     ¬ ((validate mC10ab).2.dataTypes.map DataType.name).Nodup) := by
  refine ⟨?_, by decide, by decide, by decide⟩
  intro m msg h
  by_contra hnd
  simp only [dupInSomeScope, dupIn4Categories] at hnd
  push_neg at hnd
  obtain ⟨⟨nd1, nd2, nd3, nd4⟩, ndp, ndc⟩ := hnd
  have e3 := (check_conflicts_eq_none_iff "datatypes" (m.dataTypes.map DataType.name)).2 nd1
  have e4 := (check_conflicts_eq_none_iff "TM packets" (m.TMpackets.map TMPacket.name)).2 nd2
  have e5 := (check_conflicts_eq_none_iff "commands" (m.commands.map Command.name)).2 nd3
  have e6 := (check_conflicts_eq_none_iff "calibrations" (m.calibrations.map Calib.name)).2 nd4
  have e7 : _checkEntriesParamConflicts "parameters of TM packet " (m.TMpackets.map (fun p => (p.name, p.params))) = none := by
    apply entriesParamConflicts_eq_none
    intro x hx
    simp only [List.mem_map] at hx
    obtain ⟨p, hp, rfl⟩ := hx
    exact ndp p hp
  have e8 : _checkEntriesParamConflicts "parameters of command " (m.commands.map (fun c => (c.name, c.params))) = none := by
    apply entriesParamConflicts_eq_none
    intro x hx
    simp only [List.mem_map] at hx
    obtain ⟨c, hc, rfl⟩ := hx
    exact ndc c hc
  cases hx1 : _checkTMTCTypes m with
  | some e =>
    unfold validate at h
    simp only [hx1] at h
    have hsh : ∃ msg2, e = .undeclaredTypeError msg2 := by
      unfold _checkTMTCTypes at hx1
      exact checkTMTCList_shape m _ e hx1
    obtain ⟨msg2, rfl⟩ := hsh
    simp at h
  | none =>
  cases hx2 : _checkDataTypeRefs m m.dataTypes with
  | some e =>
    unfold validate at h
    simp only [hx1, hx2] at h
    obtain ⟨msg2, rfl⟩ := checkDataTypeRefs_shape m _ e hx2
    simp at h
  | none =>
    unfold validate at h
    simp only [hx1, hx2, e3, e4, e5, e6, e7, e8] at h
    exact Option.noConfusion h

/-- A model with two data types both named `d` (and nothing else), on which
`validate` does raise `NameConflictError`. -/
def mC10d : Model :=
  { name := "db", version := "1", directory := ".",
    TMpackets := [], commands := [],
    dataTypes := [{ name := "d", engType := "", rawType := "", encoding := "", calibration := none, kind := .plain },
                  { name := "d", engType := "", rawType := "", encoding := "", calibration := none, kind := .plain }],
    calibrations := [] }

/-- Witness for C10: applying the theorem at `mC10d`, whose `validate` call
raises `NameConflictError`, yields a duplicated caller-supplied name; and the
`a.b`/`a_b` model validates successfully. -/
theorem nameConflict_only_from_presanitization_dup_witness :
    dupInSomeScope mC10d ∧ (validate mC10ab).1 = none :=
  ⟨nameConflict_only_from_presanitization_dup.1 mC10d "Name conflict in datatypes: d is used multiple times" (by decide),
   nameConflict_only_from_presanitization_dup.2.1⟩

/-- A model with two data types named `dup` and a packet parameter of
undeclared type `missing`. -/
def mC10x : Model :=
  { name := "db", version := "1", directory := ".",
    TMpackets := [{ name := "pk", params := [{ name := "qq", typeName := "missing", default := none, min := none, max := none }], id := 7, freq := none }],
    commands := [],
    dataTypes := [{ name := "dup", engType := "", rawType := "", encoding := "", calibration := none, kind := .plain },
                  { name := "dup", engType := "", rawType := "", encoding := "", calibration := none, kind := .plain }],
    calibrations := [] }

/-- Counterexample to C10 as stated (read as an equivalence): in `mC10x` two
items of a category share the same caller-supplied name, yet `validate` does
not raise `NameConflictError` — an `UndeclaredTypeError` preempts it. -/
theorem presanitization_dup_without_nameConflict_cex :
    dupInSomeScope mC10x ∧
    (validate mC10x).1 = some (.undeclaredTypeError "TMTC object pk contains parameter qq with undeclared type missing") ∧
    isNameConflict (validate mC10x).1 = false :=
  ⟨by decide, by decide, by decide⟩

/-- C5: a TM packet's array parameter added with name `arr`, type `T` and
length 10 appears in the Containers table under the bracketed name `arr[10]`
and in the Parameters table as the row `arr,T,,` — bare name, bracket suffix
stripped, with data type `T`. -/
theorem array_param_rows (m : Model) (p : TMPacket)
    (h1 : p ∈ m.TMpackets) (h2 : ArrayParameter "arr" "T" 10 ∈ p.params) :
    ",,,,arr[10],0,,," ∈ containersLines m ∧ "arr,T,," ∈ parametersLines m := by
  constructor
  · unfold containersLines
    apply List.mem_cons_of_mem
    rw [List.mem_flatMap]
    refine ⟨p, h1, ?_⟩
    apply List.mem_cons_of_mem
    apply List.mem_append_left
    have he : Containers_param_line (ArrayParameter "arr" "T" 10) = ",,,,arr[10],0,,," := rfl
    exact he ▸ List.mem_map_of_mem _ h2
  · unfold parametersLines
    apply List.mem_cons_of_mem
    rw [List.mem_flatMap]
    refine ⟨p, h1, ?_⟩
    have he : Parameters_param_line (ArrayParameter "arr" "T" 10) = "arr,T,," := rfl
    exact he ▸ List.mem_map_of_mem _ h2

/-- A packet holding the array parameter `arr` of type `T`, length 10. -/
def pC5 : TMPacket :=
  { name := "tp", params := [ArrayParameter "arr" "T" 10], id := 3, freq := none }

/-- A model holding `pC5`, used to witness C5. -/
def mC5 : Model :=
  { name := "db", version := "1", directory := ".",
    TMpackets := [pC5], commands := [], dataTypes := [], calibrations := [] }

/-- Witness for C5 at the concrete model `mC5`. -/
theorem array_param_rows_witness :
    pC5 ∈ mC5.TMpackets ∧ ArrayParameter "arr" "T" 10 ∈ pC5.params ∧
    (",,,,arr[10],0,,," ∈ containersLines mC5 ∧ "arr,T,," ∈ parametersLines mC5) :=
  ⟨by decide, by decide, array_param_rows mC5 pC5 (by decide) (by decide)⟩

/-- C6 (amended): in the generated DataTypes table, the encoding field of a
row whose encoding value contains the comma separator is enclosed in double
quotes (fields in other positions and tables are emitted verbatim). -/
theorem dataTypes_encoding_quoted_when_comma (m : Model) (dt : DataType)
    (h1 : dt ∈ m.dataTypes) (h2 : dt.encoding.data.contains ',' = true) :
    DataTypes_type_line dt ∈ dataTypesLines m ∧
    DataTypes_type_line dt =
      dt.name ++ "," ++ dt.engType ++ "," ++ dt.rawType ++ "," ++ ("\"" ++ dt.encoding ++ "\"") ++ ",," ++ dt.calibration.getD "" ++ "," := by
  constructor
  · unfold dataTypesLines
    exact List.mem_cons_of_mem _ (List.mem_map_of_mem _ h1)
  · have h2m : ',' ∈ dt.encoding.data := by simpa using h2
    simp [DataTypes_type_line, h2m]

/-- A data type whose encoding value contains a comma. -/
def dtC6 : DataType :=
  { name := "t", engType := "e", rawType := "r", encoding := "a,b", calibration := none, kind := .plain }

/-- A model declaring `dtC6`, used to witness the amended C6. -/
def mC6w : Model :=
  { name := "db", version := "1", directory := ".",
    TMpackets := [], commands := [], dataTypes := [dtC6], calibrations := [] }

/-- Witness for the amended C6 at the concrete data type `dtC6`: its
DataTypes row carries the encoding wrapped in double quotes. -/
theorem dataTypes_encoding_quoted_when_comma_witness :
    dtC6.encoding.data.contains ',' = true ∧
    (DataTypes_type_line dtC6 ∈ dataTypesLines mC6w ∧
     DataTypes_type_line dtC6 =
       dtC6.name ++ "," ++ dtC6.engType ++ "," ++ dtC6.rawType ++ "," ++ ("\"" ++ dtC6.encoding ++ "\"") ++ ",," ++ dtC6.calibration.getD "" ++ ",") ∧
    DataTypes_type_line dtC6 = "t,e,r,\"a,b\",,," :=
  ⟨by decide, dataTypes_encoding_quoted_when_comma mC6w dtC6 (by decide) (by decide), by decide⟩

/-- A model whose single calibration has the label `A,B` — a field value
containing the column separator. -/
def mC6x : Model :=
  { name := "db", version := "1", directory := ".",
    TMpackets := [], commands := [], dataTypes := [],
    calibrations := [EnumCalib "e" (.ofList ["A,B"])] }

/-- Counterexample to C6 as stated: `mC6x` validates, and the generated
Calibration table emits the comma-containing label `A,B` in a row that
contains no double quote at all — a field whose value contains the column
separator is emitted unquoted. -/
theorem unquoted_comma_field_cex :
    (validate mC6x).1 = none ∧
    Calibration_start_line (EnumCalib "e" (.ofList ["A,B"])) = "e,enumeration,0,A,B" ∧
    ("A,B").data.contains ',' = true ∧
    ("e,enumeration,0,A,B").data.contains '"' = false ∧
    "e,enumeration,0,A,B" ∈ calibrationLines (validate mC6x).2 :=
  ⟨by decide, by decide, by decide, by decide, by decide⟩

/-- C3: for every nonempty decimal digit string `n`, translating the
parametrized primitive token `string` ++ `n` yields engineering type
`string`, raw type `string`, and an encoding width equal to 8 times the
numeric value of `n`. -/
theorem translate_string_token (n : String) (h1 : n.data ≠ []) (h2 : n.data.all Char.isDigit = true) :
    _translate_type ("string" ++ n) = .ok ("string", "string", toString (8 * pyIntOfDigits n)) := by
  obtain ⟨l⟩ := n
  cases l with
  | nil => exact absurd rfl h1
  | cons c cs =>
    have h2c : (c :: cs).all Char.isDigit = true := h2
    have hne : ∀ k ∈ ["bool", "U8", "U16", "U32", "U64", "I8", "I16", "I32", "I64", "F32", "F64"],
        ("string" ++ (⟨c :: cs⟩ : String)) ≠ k := by
      intro k hk he
      have hdk := congrArg String.data he
      fin_cases hk <;> simp [String.data_append] at hdk
    have hb := hne "bool" (by simp)
    have hu8 := hne "U8" (by simp)
    have hu16 := hne "U16" (by simp)
    have hu32 := hne "U32" (by simp)
    have hu64 := hne "U64" (by simp)
    have hi8 := hne "I8" (by simp)
    have hi16 := hne "I16" (by simp)
    have hi32 := hne "I32" (by simp)
    have hi64 := hne "I64" (by simp)
    have hf32 := hne "F32" (by simp)
    have hf64 := hne "F64" (by simp)
    have hpat : ("string" ++ (⟨c :: cs⟩ : String)) ≠ "string(\\d+)" := by
      intro he
      have hdk := congrArg String.data he
      simp [String.data_append] at hdk
      rw [hdk.1] at h2c
      simp at h2c
    have hlook : _lookupExact ("string" ++ ⟨c :: cs⟩) TYPES_MAP = none := by
      simp [_lookupExact, TYPES_MAP, hb, hu8, hu16, hu32, hu64, hi8, hi16, hi32, hi64, hf32, hf64, hpat]
    have hdrop : dropPrefixChars ['s', 't', 'r', 'i', 'n', 'g'] ('s' :: 't' :: 'r' :: 'i' :: 'n' :: 'g' :: c :: cs) = some (c :: cs) := by
      simp [dropPrefixChars]
    have hall := List.all_eq_true.1 h2c
    have hcs : ∀ x ∈ cs, x.isDigit = true := fun x hx => hall x (List.mem_cons_of_mem c hx)
    have hmatch : matchStringPattern ("string" ++ ⟨c :: cs⟩) = some ⟨c :: cs⟩ := by
      simp [matchStringPattern, String.data_append, hdrop, hall]
      exact hcs
    unfold _translate_type
    rw [hlook]
    simp [TYPES_MAP, _translate_loop, patternMatch, hmatch, hb, hu8, hu16, hu32, hu64, hi8, hi16, hi32, hi64, hf32, hf64, _formatField, isMulTemplate, pyFormat, pyFormatAux, pyIntOfDigits, pyIntOfDigitList]

/-- Witness for C3 at `n = "40"`: the token `string40` resolves to
engineering type `string`, raw type `string` and width `320`. -/
theorem translate_string_token_witness :
    ("40" : String).data ≠ [] ∧ ("40" : String).data.all Char.isDigit = true ∧
    _translate_type "string40" = .ok ("string", "string", "320") :=
  ⟨by decide, by decide, by
    have h := translate_string_token "40" (by decide) (by decide)
    have e1 : ("string" ++ "40" : String) = "string40" := rfl
    have e2 : toString (8 * pyIntOfDigits "40") = "320" := rfl
    rw [e1, e2] at h
    exact h⟩
